import Mathlib

/-!
Verification of the debounced suggestion trigger, the lint marker formatter and the
decoration-change handler of src/ui/src/components/blocks/MonacoDiffComponent.js.

The component is embedded shallowly. Its per-instance mutable fields (this.timer and
this.state) become a ComponentState record. The browser's timer environment is made
explicit: setTimeout adds a Timeout record with a fresh id to a table of live timeouts
and returns the id, clearTimeout removes the timeout with the given id, and a timeout
that fires is removed from the table. This way the invariant that at most one scheduled
trigger is outstanding is a proved property of the onChange code, not something the
embedding builds in. The setTimeout closure in onChange captures the destructured
modifiedEditor, so a Timeout record carries the editor handle that was current when it
was scheduled. External inputs (the result of getMonacoTriggerCharacters, the markers
returned by monaco.editor.getModelMarkers) are parameters.
-/

namespace MonacoDiff

/-- One text insertion of a change event: an element of e.changes, carrying its text. -/
structure Change where
  text : String
  deriving DecidableEq

/-- A change event delivered to onChange: the ordered list e.changes of insertions. -/
structure ChangeEvent where
  changes : List Change
  deriving DecidableEq

/-- A text model as consumed by the decoration handler: getModeId() and uri. -/
structure Model where
  modeId : String
  uri : String
  deriving DecidableEq

/-- The modified-editor handle; getModel() may return null, hence an Option field. -/
structure Editor where
  model : Option Model
  deriving DecidableEq

/-- A diagnostic marker as consumed by the lint formatter in editorDidMount. -/
structure Marker where
  startLineNumber : Nat
  startColumn : Nat
  endColumn : Nat
  message : String
  deriving DecidableEq

/-- The component instance fields read and written by onChange and editorDidMount:
this.state.modifiedEditor (null until mount), this.state.debounceWait,
this.state.triggerCharacters, and this.timer (the last setTimeout handle, null
initially; it is not reset when a timeout fires, exactly as in the source). -/
structure ComponentState where
  modifiedEditor : Option Editor
  debounceWait : Nat
  triggerCharacters : List String
  timer : Option Nat
  deriving DecidableEq

/-- A live timeout in the browser environment: its handle id, its absolute firing time,
and the editor handle captured by the setTimeout closure in onChange. -/
structure Timeout where
  id : Nat
  fireAt : Nat
  editor : Option Editor
  deriving DecidableEq

/-- The component together with the timer environment: the table of live timeouts and
the next fresh timeout id. -/
structure Sys where
  comp : ComponentState
  pending : List Timeout
  nextId : Nat
  deriving DecidableEq

/-- The observable calls the component makes: the value-change callback with the raw
new text, the suggestion request modifiedEditor.trigger(...), and the TypeError raised
when the fired closure dereferences a null modifiedEditor. -/
inductive Out where
  | valueChange (v : String)
  | triggerSuggest
  | nullDeref
  deriving DecidableEq

/-- The constructor: this.timer = null, debounceWait = 300, modifiedEditor = null.
The triggerCharacters field is the result of the external call
getMonacoTriggerCharacters(), passed in as a parameter. -/
def initialState (triggerChars : List String) : ComponentState :=
  { modifiedEditor := none, debounceWait := 300,
    triggerCharacters := triggerChars, timer := none }

/-- A freshly constructed component in an empty timer environment. -/
def initialSys (triggerChars : List String) : Sys :=
  { comp := initialState triggerChars, pending := [], nextId := 0 }

/-- clearTimeout(h): removes the live timeout with handle h; clearTimeout(null), and
clearTimeout on an already-fired or already-cleared handle, are no-ops. -/
def clearTimeout (pending : List Timeout) (h : Option Nat) : List Timeout :=
  match h with
  | none => pending
  | some i => pending.filter (fun t => decide (t.id ≠ i))

/-- The guard of the scheduling branch of onChange:
e.changes.length > 0 and triggerCharacters.includes(e.changes[0].text). -/
def qualifies (c : ComponentState) (e : ChangeEvent) : Bool :=
  match e.changes with
  | [] => false
  | ch :: _ => c.triggerCharacters.contains ch.text

/-- onChange(newValue, e): if the event qualifies, clearTimeout(this.timer) and then
this.timer = setTimeout(closure, debounceWait), the closure capturing the current
modifiedEditor; in every case this.onValueChange(newValue) is called. The returned
list is the sequence of observable calls made synchronously by onChange itself. -/
def onChange (s : Sys) (now : Nat) (newValue : String) (e : ChangeEvent) :
    Sys × List Out :=
  if qualifies s.comp e then
    let cleared := clearTimeout s.pending s.comp.timer
    let t : Timeout :=
      { id := s.nextId, fireAt := now + s.comp.debounceWait,
        editor := s.comp.modifiedEditor }
    ({ comp := { s.comp with timer := some t.id },
       pending := cleared ++ [t],
       nextId := s.nextId + 1 },
     [Out.valueChange newValue])
  else
    (s, [Out.valueChange newValue])

/-- What the setTimeout closure does when it fires: it calls
modifiedEditor.trigger("manual_trigger", "editor.action.triggerSuggest") on the
captured handle; if that handle was null, the dereference is a TypeError. -/
def fireTimeout (t : Timeout) : Out :=
  match t.editor with
  | none => Out.nullDeref
  | some _ => Out.triggerSuggest

/-- Advance the timer environment to time t: every live timeout due at or before t
fires (and is removed); the others stay. The outputs are tagged with firing times. -/
def fireDue (s : Sys) (t : Nat) : Sys × List (Nat × Out) :=
  ({ s with pending := s.pending.filter (fun x => decide (t < x.fireAt)) },
   (s.pending.filter (fun x => decide (x.fireAt ≤ t))).map
     (fun x => (x.fireAt, fireTimeout x)))

/-- The externally driven events: a change event with its new value (dispatched to
onChange), and the mount callback editorDidMount, which stores the modified editor
handle into this.state.modifiedEditor. -/
inductive Ev where
  | change (newValue : String) (e : ChangeEvent)
  | mount (ed : Editor)
  deriving DecidableEq

/-- One step at time t: first all timeouts due by t fire (the event loop runs them
before the new event), then the event itself is handled. -/
def step (s : Sys) (t : Nat) (ev : Ev) : Sys × List (Nat × Out) :=
  let fd := fireDue s t
  match ev with
  | Ev.change v e =>
    let r := onChange fd.1 t v e
    (r.1, fd.2 ++ r.2.map (fun o => (t, o)))
  | Ev.mount ed =>
    ({ fd.1 with comp := { fd.1.comp with modifiedEditor := some ed } }, fd.2)

/-- Run a time-ordered list of events, collecting all time-tagged outputs. -/
def run : Sys → List (Nat × Ev) → Sys × List (Nat × Out)
  | s, [] => (s, [])
  | s, (t, ev) :: rest =>
    let r := step s t ev
    let r2 := run r.1 rest
    (r2.1, r.2 ++ r2.2)

/-- Run the events and then let time pass until tEnd so trailing timeouts fire. -/
def runAll (s : Sys) (evs : List (Nat × Ev)) (tEnd : Nat) : Sys × List (Nat × Out) :=
  let r := run s evs
  let fd := fireDue r.1 tEnd
  (fd.1, r.2 ++ fd.2)

/-- Whether an output is a fired trigger (a suggestion request, or the TypeError a
fired closure raises on a null handle). -/
def isFire : Out → Bool
  | Out.triggerSuggest => true
  | Out.nullDeref => true
  | Out.valueChange _ => false

/-- The fired-trigger outputs of a run, with their firing times. -/
def firedOutputs (outs : List (Nat × Out)) : List (Nat × Out) :=
  outs.filter (fun p => isFire p.2)

/-- The template applied to one marker inside editorDidMount. -/
def formatMarker (m : Marker) : String :=
  "Lint error on line " ++ toString m.startLineNumber ++ " columns " ++
    toString m.startColumn ++ "-" ++ toString m.endColumn ++ ": " ++ m.message

/-- markers.map applied to the template: the argument passed to this.onLintError. -/
def formatMarkers (markers : List Marker) : List String :=
  markers.map formatMarker

/-- The possible outcomes of one onDidChangeModelDecorations callback: early return
without calling onLintError, a single onLintError call with the formatted list, or the
TypeError of calling getModel() on a null this.state.modifiedEditor. -/
inductive DecorationResult where
  | noCall
  | called (msgs : List String)
  | nullDeref
  deriving DecidableEq

/-- The onDidChangeModelDecorations handler installed by editorDidMount: it reads
this.state.modifiedEditor, calls getModel(), returns early when the model is null or
getModeId() is not "json", and otherwise calls this.onLintError once with the
formatted markers obtained from monaco.editor.getModelMarkers for owner
model.getModeId() and resource model.uri. The marker store getModelMarkers is an
external input, passed as a function parameter. -/
def onDecorationsChangeHandler (stateEditor : Option Editor)
    (getModelMarkers : String → String → List Marker) : DecorationResult :=
  match stateEditor with
  | none => DecorationResult.nullDeref
  | some ed =>
    match ed.model with
    | none => DecorationResult.noCall
    | some model =>
      if model.modeId ≠ "json" then DecorationResult.noCall
      else
        DecorationResult.called
          (formatMarkers (getModelMarkers model.modeId model.uri))

/-- At most one live timeout, and this.timer holds its handle: the inductive invariant
of the debounce logic. -/
def AtMostOne (s : Sys) : Prop :=
  s.pending = [] ∨ ∃ t, s.pending = [t] ∧ s.comp.timer = some t.id


theorem clearTimeout_nil (h : Option Nat) : clearTimeout [] h = [] := by
  cases h <;> simp [clearTimeout]

theorem clearTimeout_self (t : Timeout) : clearTimeout [t] (some t.id) = [] := by
  simp [clearTimeout]

theorem atMostOne_onChange (s : Sys) (now : Nat) (v : String) (e : ChangeEvent)
    (h : AtMostOne s) : AtMostOne (onChange s now v e).1 := by
  by_cases hq : qualifies s.comp e
  · right
    refine ⟨⟨s.nextId, now + s.comp.debounceWait, s.comp.modifiedEditor⟩, ?_, ?_⟩
    · rcases h with h | ⟨t, hp, ht⟩
      · simp [onChange, hq, h, clearTimeout_nil]
      · simp [onChange, hq, hp, ht, clearTimeout_self]
    · simp [onChange, hq]
  · simpa [onChange, hq] using h

theorem atMostOne_fireDue (s : Sys) (tm : Nat) (h : AtMostOne s) :
    AtMostOne (fireDue s tm).1 := by
  rcases h with h | ⟨x, hp, ht⟩
  · left; simp [fireDue, h]
  · by_cases hf : tm < x.fireAt
    · right; refine ⟨x, ?_, ht⟩; simp [fireDue, hp, hf]
    · left; simp [fireDue, hp, hf]

theorem atMostOne_step (s : Sys) (tm : Nat) (ev : Ev) (h : AtMostOne s) :
    AtMostOne (step s tm ev).1 := by
  cases ev with
  | change v e =>
    simpa [step] using
      atMostOne_onChange (fireDue s tm).1 tm v e (atMostOne_fireDue s tm h)
  | mount ed =>
    rcases atMostOne_fireDue s tm h with h2 | ⟨x, hp, ht⟩
    · left; simpa [step] using h2
    · right; exact ⟨x, by simpa [step] using hp, by simpa [step] using ht⟩

theorem atMostOne_run (s : Sys) (evs : List (Nat × Ev)) (h : AtMostOne s) :
    AtMostOne (run s evs).1 := by
  induction evs generalizing s with
  | nil => simpa [run] using h
  | cons p rest ih =>
    obtain ⟨t, ev⟩ := p
    simpa [run] using ih (step s t ev).1 (atMostOne_step s t ev h)


/-- C1: at most one pending trigger is ever outstanding. On every qualifying change
event, onChange cancels the outstanding scheduled trigger before scheduling the new
one, so afterwards the newly scheduled trigger is the only live one and this.timer
holds its handle (last-write-wins debounce); and along every event trace from the
freshly constructed component, the timer environment never holds more than one live
suggestion timeout. -/
theorem claim_C1 :
    (∀ (s : Sys) (now : Nat) (v : String) (e : ChangeEvent),
        AtMostOne s → qualifies s.comp e = true →
        (onChange s now v e).1.pending =
          [⟨s.nextId, now + s.comp.debounceWait, s.comp.modifiedEditor⟩] ∧
        (onChange s now v e).1.comp.timer = some s.nextId ∧
        AtMostOne (onChange s now v e).1) ∧
    (∀ (tc : List String) (evs : List (Nat × Ev)),
        (run (initialSys tc) evs).1.pending.length ≤ 1) := by
  constructor
  · intro s now v e h hq
    refine ⟨?_, ?_, atMostOne_onChange s now v e h⟩
    · rcases h with h | ⟨t, hp, ht⟩
      · simp [onChange, hq, h, clearTimeout_nil]
      · simp [onChange, hq, hp, ht, clearTimeout_self]
    · simp [onChange, hq]
  · intro tc evs
    rcases atMostOne_run (initialSys tc) evs (Or.inl rfl) with h | ⟨t, hp, _⟩
    · simp [h]
    · simp [hp]

/-- Witness for C1 at a concrete state and event. -/
theorem claim_C1_witness :
    (onChange (initialSys ["\"", ":"]) 7 "v" ⟨[⟨"\""⟩]⟩).1.pending =
      [⟨0, 307, none⟩] ∧
    (run (initialSys ["\"", ":"]) [(0, Ev.change "v" ⟨[⟨"\""⟩]⟩)]).1.pending.length ≤
      1 := by
  have h := claim_C1
  exact ⟨(h.1 (initialSys ["\"", ":"]) 7 "v" ⟨[⟨"\""⟩]⟩ (Or.inl rfl) (by decide)).1,
         h.2 ["\"", ":"] [(0, Ev.change "v" ⟨[⟨"\""⟩]⟩)]⟩

/-- C2: with trigger characters quote and colon and delay 300, typing the quote at
time 0 and the colon at time 100 (after the editor mounted) fires exactly one
suggestion request, at time 400, that is, 300 units after the colon keystroke. -/
theorem claim_C2 :
    firedOutputs (runAll (initialSys ["\"", ":"])
        [(0, Ev.mount ⟨none⟩),
         (0, Ev.change "a" ⟨[⟨"\""⟩]⟩),
         (100, Ev.change "b" ⟨[⟨":"⟩]⟩)] 1000).2 =
      [(400, Out.triggerSuggest)] := by
  decide

/-- C3 counterexample: when a qualifying change event arrives before the editor
mounted (this.state.modifiedEditor still null), onChange does NOT skip scheduling —
the timeout table becomes nonempty — and when the scheduled trigger fires it is not a
no-op: it dereferences the null handle, so the error branch is reached. -/
theorem claim_C3_counterexample :
    (onChange (initialSys ["\"", ":"]) 0 "v" ⟨[⟨"\""⟩]⟩).1.pending ≠ [] ∧
    firedOutputs (runAll (initialSys ["\"", ":"])
        [(0, Ev.change "v" ⟨[⟨"\""⟩]⟩)] 1000).2 =
      [(300, Out.nullDeref)] := by
  exact ⟨by decide, by decide⟩

/-- C3 amended: if the editor-state handle is not yet available when a change event
with a trigger character arrives, onChange still schedules a trigger; the scheduled
timeout captured the null handle, and firing it dereferences the absent handle and
raises the error. The error branch is reachable in the component's own code; it is
avoided only when the environment delivers no qualifying change before mount. -/
theorem claim_C3_amended (s : Sys) (now : Nat) (v : String) (e : ChangeEvent)
    (hm : s.comp.modifiedEditor = none) (hq : qualifies s.comp e = true) :
    ∃ t : Timeout, t ∈ (onChange s now v e).1.pending ∧ t.editor = none ∧
      fireTimeout t = Out.nullDeref ∧
      (onChange s now v e).1.comp.timer = some t.id := by
  refine ⟨⟨s.nextId, now + s.comp.debounceWait, s.comp.modifiedEditor⟩,
    ?_, ?_, ?_, ?_⟩ <;> simp [onChange, hq, hm, fireTimeout]

/-- Witness for the amended C3 at a concrete unmounted state and event. -/
theorem claim_C3_amended_witness :
    ∃ t : Timeout,
      t ∈ (onChange (initialSys ["\"", ":"]) 0 "w" ⟨[⟨":"⟩]⟩).1.pending ∧
      t.editor = none ∧ fireTimeout t = Out.nullDeref ∧
      (onChange (initialSys ["\"", ":"]) 0 "w" ⟨[⟨":"⟩]⟩).1.comp.timer = some t.id :=
  claim_C3_amended (initialSys ["\"", ":"]) 0 "w" ⟨[⟨":"⟩]⟩ rfl (by decide)

/-- C4: the lint marker formatter is a pure total function that maps each marker, in
input order, to the fixed-shape string; the given concrete marker maps to the given
string, and the empty list maps to the empty list. -/
theorem claim_C4 :
    (∀ (markers : List Marker) (i : Nat),
        (formatMarkers markers)[i]? = (markers[i]?).map formatMarker) ∧
    (∀ markers : List Marker, (formatMarkers markers).length = markers.length) ∧
    formatMarkers [⟨3, 5, 9, "bad token"⟩] =
      ["Lint error on line 3 columns 5-9: bad token"] ∧
    formatMarkers [] = [] := by
  refine ⟨fun ms i => ?_, fun ms => ?_, by decide, rfl⟩ <;> simp [formatMarkers]

/-- C5: a change event with an empty insertion list schedules nothing and raises no
error: the whole system state is unchanged and the call completes normally, with only
the value-change callback invoked. -/
theorem claim_C5 (s : Sys) (now : Nat) (v : String) :
    onChange s now v ⟨[]⟩ = (s, [Out.valueChange v]) := by
  simp [onChange, qualifies]

/-- C6: onChange always invokes the value-change callback with the raw new text,
whatever the event and the current state (so also when the value did not change),
and regardless of whether a trigger was scheduled. -/
theorem claim_C6 (s : Sys) (now : Nat) (v : String) (e : ChangeEvent) :
    (onChange s now v e).2 = [Out.valueChange v] := by
  by_cases hq : qualifies s.comp e <;> simp [onChange, hq]

/-- C7: when the model is absent or its mode is not "json", the decoration handler
returns without calling onLintError, and its result does not depend on the marker
store, so no markers are read. -/
theorem claim_C7 (ed : Editor) (f g : String → String → List Marker)
    (h : ∀ m : Model, ed.model = some m → m.modeId ≠ "json") :
    onDecorationsChangeHandler (some ed) f = DecorationResult.noCall ∧
    onDecorationsChangeHandler (some ed) f = onDecorationsChangeHandler (some ed) g := by
  cases hm : ed.model with
  | none => simp [onDecorationsChangeHandler, hm]
  | some m =>
    have hj := h m hm
    simp [onDecorationsChangeHandler, hm, hj]

/-- Witness for C7 with a concrete non-json model and two marker stores. -/
theorem claim_C7_witness :
    onDecorationsChangeHandler (some ⟨some ⟨"yaml", "u"⟩⟩) (fun _ _ => []) =
      DecorationResult.noCall ∧
    onDecorationsChangeHandler (some ⟨some ⟨"yaml", "u"⟩⟩) (fun _ _ => []) =
      onDecorationsChangeHandler (some ⟨some ⟨"yaml", "u"⟩⟩)
        (fun _ _ => [⟨1, 1, 2, "m"⟩]) :=
  claim_C7 ⟨some ⟨"yaml", "u"⟩⟩ (fun _ _ => []) (fun _ _ => [⟨1, 1, 2, "m"⟩])
    (fun m hm => by cases hm; decide)

/-- C8: only the first insertion of a change event is inspected: two events with
nonempty insertion lists whose first insertions carry the same text get the same
onChange result (same new state, same calls), whatever the later insertions are. -/
theorem claim_C8 (s : Sys) (now : Nat) (v : String) (c1 c2 : Change)
    (r1 r2 : List Change) (h : c1.text = c2.text) :
    onChange s now v ⟨c1 :: r1⟩ = onChange s now v ⟨c2 :: r2⟩ := by
  simp [onChange, qualifies, h]

/-- Witness for C8 with equal first insertions and different tails. -/
theorem claim_C8_witness :
    onChange (initialSys ["\"", ":"]) 5 "x" ⟨[⟨":"⟩]⟩ =
      onChange (initialSys ["\"", ":"]) 5 "x" ⟨[⟨":"⟩, ⟨"zz"⟩]⟩ :=
  claim_C8 (initialSys ["\"", ":"]) 5 "x" ⟨":"⟩ ⟨":"⟩ [] [⟨"zz"⟩] rfl

/-- C9: a non-qualifying change event leaves the system untouched: no cancel, no
reschedule, only the value-change call; hence the timeouts due at any later time, and
so the firing time of an outstanding trigger, are exactly as before the call. -/
theorem claim_C9 (s : Sys) (now : Nat) (v : String) (e : ChangeEvent)
    (h : qualifies s.comp e = false) :
    onChange s now v e = (s, [Out.valueChange v]) ∧
    ∀ tEnd : Nat, fireDue (onChange s now v e).1 tEnd = fireDue s tEnd := by
  refine ⟨by simp [onChange, h], fun tEnd => by simp [onChange, h]⟩

/-- Witness for C9 at a concrete non-trigger keystroke against a state with an
outstanding timeout. -/
theorem claim_C9_witness :
    onChange ⟨initialState ["\"", ":"], [⟨0, 300, none⟩], 1⟩ 10 "y" ⟨[⟨"x"⟩]⟩ =
      (⟨initialState ["\"", ":"], [⟨0, 300, none⟩], 1⟩, [Out.valueChange "y"]) ∧
    ∀ tEnd : Nat,
      fireDue (onChange ⟨initialState ["\"", ":"], [⟨0, 300, none⟩], 1⟩ 10 "y"
          ⟨[⟨"x"⟩]⟩).1 tEnd =
        fireDue ⟨initialState ["\"", ":"], [⟨0, 300, none⟩], 1⟩ tEnd :=
  claim_C9 ⟨initialState ["\"", ":"], [⟨0, 300, none⟩], 1⟩ 10 "y" ⟨[⟨"x"⟩]⟩
    (by decide)

/-- C10: when the model is present and its mode is "json", one decoration-change
callback makes exactly one onLintError call, with the full formatted list for the
markers the store returns for owner "json" and the model's uri; when the store has no
markers this is a call with the empty list, not an omitted call. -/
theorem claim_C10 (ed : Editor) (m : Model) (f : String → String → List Marker)
    (hm : ed.model = some m) (hj : m.modeId = "json") :
    onDecorationsChangeHandler (some ed) f =
      DecorationResult.called (formatMarkers (f "json" m.uri)) ∧
    (f "json" m.uri = [] →
      onDecorationsChangeHandler (some ed) f = DecorationResult.called []) := by
  constructor
  · simp [onDecorationsChangeHandler, hm, hj]
  · intro he
    simp [onDecorationsChangeHandler, hm, hj, he, formatMarkers]

/-- Witness for C10 with a concrete json model and an empty marker store. -/
theorem claim_C10_witness :
    onDecorationsChangeHandler (some ⟨some ⟨"json", "u"⟩⟩) (fun _ _ => []) =
      DecorationResult.called (formatMarkers []) ∧
    ((fun (_ _ : String) => ([] : List Marker)) "json" "u" = [] →
      onDecorationsChangeHandler (some ⟨some ⟨"json", "u"⟩⟩) (fun _ _ => []) =
        DecorationResult.called []) :=
  claim_C10 ⟨some ⟨"json", "u"⟩⟩ ⟨"json", "u"⟩ (fun _ _ => []) rfl rfl

end MonacoDiff
